import Mathlib

/-!
Shallow embedding of the KubeSight core (src/kubesight/app.py) and proofs
of the specification claims about it.

Modelling conventions:
* Python strings are Lean `String`s; a parameter that Python may receive as
  `None` is an `Option String`, and Python truthiness (`if not s`) is
  `pyFalsy` (true on `None` and on the empty string).
* Python floats are modelled as exact fractions (`Q` below, an integer
  numerator over a positive integer denominator).  Every concrete value
  appearing in a claim is exactly representable in binary floating point and
  all operations on it are exact, so the fraction model agrees with the
  Python runtime on every input used below.  `"%.1f"`/`"%.0f"` formatting is
  modelled by round-half-to-even on the exact fraction.
* A function that can raise an exception returns an `Option`; `none` means
  the Python call raises (an uncaught `ValueError` from `float()`/`int()`).
* `float(...)` and `int(...)` applied to strings are modelled by `pyFloat?`
  and `pyInt?` on the plain decimal forms (optional sign, digits, for floats
  an optional decimal point).  Exotic accepted spellings (exponents, `inf`,
  `nan`, surrounding whitespace, underscores) are outside the model; no
  theorem below depends on such a string.
-/

namespace Kubesight

/-- Exact fraction value of a Python float: `num / den` with `den` kept
positive by construction.  Not normalised by gcd; equality of values is
cross-multiplication (`BEq` instance below). -/
structure Q where
  num : ℤ
  den : ℤ
deriving DecidableEq

instance (n : ℕ) : OfNat Q n := ⟨⟨(n : ℤ), 1⟩⟩

/-- Exact product of two float values. -/
def Q.mul (a b : Q) : Q := ⟨a.num * b.num, a.den * b.den⟩

instance : Mul Q := ⟨Q.mul⟩

/-- Exact quotient of two float values, keeping the denominator positive
(the zero-divisor case is always guarded in the source before dividing). -/
def Q.div (a b : Q) : Q :=
  if 0 ≤ b.num then ⟨a.num * b.den, a.den * b.num⟩
  else ⟨-(a.num * b.den), -(a.den * b.num)⟩

instance : Div Q := ⟨Q.div⟩

/-- Value equality of fractions (cross-multiplication), modelling `==` on
Python floats. -/
def Q.beq (a b : Q) : Bool := a.num * b.den == b.num * a.den

instance : BEq Q := ⟨Q.beq⟩

/-- Embedding of an integer as a float value. -/
def Q.ofInt (z : ℤ) : Q := ⟨z, 1⟩

/-- Rational value of a fraction, for spec-facing statements. -/
def Q.toRat (q : Q) : ℚ := (q.num : ℚ) / (q.den : ℚ)

/-- Python truthiness of an optional string: `not s` is true for `None` and
for the empty string. -/
def pyFalsy : Option String → Bool
  | none => true
  | some s => s.data.isEmpty

/-- Modelling `str.endswith`. -/
def strEndsWith (s t : String) : Bool := t.data.isSuffixOf s.data

/-- Modelling `str.startswith`. -/
def strStartsWith (s t : String) : Bool := t.data.isPrefixOf s.data

/-- Modelling the slice `s[:-n]` for `n ≤ len(s)`. -/
def strDropRight (s : String) (n : Nat) : String :=
  ⟨s.data.take (s.data.length - n)⟩

/-- Modelling `str.strip()` (whitespace removed from both ends). -/
def strStrip (s : String) : String :=
  ⟨((s.data.dropWhile Char.isWhitespace).reverse.dropWhile Char.isWhitespace).reverse⟩

/-- Numeric value of a digit string. -/
def digitsVal (l : List Char) : Nat :=
  l.foldl (fun n c => 10 * n + (c.toNat - 48)) 0

/-- Splitting a character list at every '.' (used to read decimal literals). -/
def splitOnDot : List Char → List (List Char)
  | [] => [[]]
  | c :: rest =>
    let r := splitOnDot rest
    if c = '.' then [] :: r
    else
      match r with
      | h :: t => (c :: h) :: t
      | [] => [[c]]

/-- Modelled `float(s)` on plain decimal literals: optional sign, then digits
with an optional decimal point (`"12"`, `"12.5"`, `"12."`, `".5"`).  `none`
models a raised `ValueError`. -/
def pyFloat? (s : String) : Option Q :=
  let p : ℤ × List Char :=
    match s.data with
    | '-' :: rest => (-1, rest)
    | '+' :: rest => (1, rest)
    | l => (1, l)
  match splitOnDot p.2 with
  | [w] =>
    if !w.isEmpty && w.all Char.isDigit then
      some ⟨p.1 * (digitsVal w : ℤ), 1⟩
    else none
  | [w, f] =>
    if (!w.isEmpty || !f.isEmpty) && w.all Char.isDigit && f.all Char.isDigit then
      some ⟨p.1 * ((digitsVal w : ℤ) * ((10 ^ f.length : ℕ) : ℤ) + (digitsVal f : ℤ)),
            ((10 ^ f.length : ℕ) : ℤ)⟩
    else none
  | _ => none

/-- Modelled `int(s)` on plain integer literals: optional sign then digits.
`none` models a raised `ValueError` (in particular on any decimal point). -/
def pyInt? (s : String) : Option ℤ :=
  match s.data with
  | '-' :: rest =>
    if !rest.isEmpty && rest.all Char.isDigit then some (-(digitsVal rest : ℤ)) else none
  | '+' :: rest =>
    if !rest.isEmpty && rest.all Char.isDigit then some ((digitsVal rest : ℤ)) else none
  | l =>
    if !l.isEmpty && l.all Char.isDigit then some ((digitsVal l : ℤ)) else none

/-- Modelled `int(x)` on a float value: truncation toward zero. -/
def pyTrunc (q : Q) : ℤ :=
  if 0 ≤ q.num then q.num.fdiv q.den else -((-q.num).fdiv q.den)

/-- Round-half-to-even of a fraction to an integer, modelling how Python
format rounding behaves on exactly representable values. -/
def roundHalfEven (q : Q) : ℤ :=
  let f := q.num.fdiv q.den
  let r2 := 2 * (q.num - f * q.den)
  if r2 < q.den then f
  else if q.den < r2 then f + 1
  else if f % 2 = 0 then f else f + 1

/-- Modelled `f"{q:.1f}"` (one decimal place). -/
def fmtFixed1 (q : Q) : String :=
  let n := roundHalfEven (q * 10)
  let sgn := if n < 0 then "-" else ""
  sgn ++ toString (n.natAbs / 10) ++ "." ++ toString (n.natAbs % 10)

/-- Modelled `f"{q:.0f}"` (zero decimal places). -/
def fmtFixed0 (q : Q) : String :=
  let n := roundHalfEven q
  let sgn := if n < 0 then "-" else ""
  sgn ++ toString n.natAbs

/-- `format_cpu_usage` (app.py lines 169-186).  `none` models a raised
exception (`int()` on a malformed nanocore body, `float()` on a malformed
bare-number string). -/
def format_cpu_usage (cpu_str : Option String) : Option String :=
  if pyFalsy cpu_str then some "N/A"
  else
    let s := cpu_str.getD ""
    if strEndsWith s "n" then
      (pyInt? (strDropRight s 1)).map (fun nanocores => fmtFixed1 (Q.ofInt nanocores / 1000000) ++ "m")
    else if strEndsWith s "m" then some s
    else (pyFloat? s).map (fun cores => fmtFixed1 (cores * 1000) ++ "m")

/-- `parse_memory_to_bytes` (app.py lines 189-205). -/
def parse_memory_to_bytes (memory_str : Option String) : Option ℤ :=
  if pyFalsy memory_str then some 0
  else
    let s := strStrip (memory_str.getD "")
    if strEndsWith s "Ki" then
      (pyFloat? (strDropRight s 2)).map (fun q => pyTrunc (q * 1024))
    else if strEndsWith s "Mi" then
      (pyFloat? (strDropRight s 2)).map (fun q => pyTrunc (q * 1024 * 1024))
    else if strEndsWith s "Gi" then
      (pyFloat? (strDropRight s 2)).map (fun q => pyTrunc (q * 1024 * 1024 * 1024))
    else if strEndsWith s "Ti" then
      (pyFloat? (strDropRight s 2)).map (fun q => pyTrunc (q * 1024 * 1024 * 1024 * 1024))
    else (pyFloat? s).map pyTrunc

/-- `parse_cpu_to_millicores` (app.py lines 208-222). -/
def parse_cpu_to_millicores (cpu_str : Option String) : Option Q :=
  if pyFalsy cpu_str then some 0
  else
    let s := strStrip (cpu_str.getD "")
    if strEndsWith s "n" then
      (pyFloat? (strDropRight s 1)).map (fun q => q / 1000000)
    else if strEndsWith s "m" then pyFloat? (strDropRight s 1)
    else (pyFloat? s).map (fun q => q * 1000)

/-- Unit choice of `format_memory_usage` on the parsed byte count
(app.py lines 232-238). -/
def format_bytes_value (bytes_val : ℤ) : String :=
  if 1024 * 1024 * 1024 ≤ bytes_val then
    fmtFixed1 (Q.ofInt bytes_val / (1024 * 1024 * 1024)) ++ "Gi"
  else if 1024 * 1024 ≤ bytes_val then
    fmtFixed1 (Q.ofInt bytes_val / (1024 * 1024)) ++ "Mi"
  else if 1024 ≤ bytes_val then
    fmtFixed1 (Q.ofInt bytes_val / 1024) ++ "Ki"
  else toString bytes_val ++ "B"

/-- `format_memory_usage` (app.py lines 225-238). -/
def format_memory_usage (memory_str : Option String) : Option String :=
  if pyFalsy memory_str then some "N/A"
  else (parse_memory_to_bytes memory_str).map format_bytes_value

/-- `format_memory_with_percentage` (app.py lines 241-261). -/
def format_memory_with_percentage (used_str requested_str : Option String) : Option String :=
  if pyFalsy used_str then some "N/A"
  else do
    let used_bytes ← parse_memory_to_bytes used_str
    if pyFalsy requested_str then format_memory_usage used_str
    else do
      let requested_bytes ← parse_memory_to_bytes requested_str
      if requested_bytes == 0 then format_memory_usage used_str
      else do
        let percentage := (Q.ofInt used_bytes / Q.ofInt requested_bytes) * 100
        let used_formatted ← format_memory_usage used_str
        let requested_formatted ← format_memory_usage requested_str
        some (used_formatted ++ " / " ++ requested_formatted ++ " (" ++
              fmtFixed0 percentage ++ "%)")

/-- `format_cpu_with_percentage` (app.py lines 264-284). -/
def format_cpu_with_percentage (used_str requested_str : Option String) : Option String :=
  if pyFalsy used_str then some "N/A"
  else do
    let used_millicores ← parse_cpu_to_millicores used_str
    if pyFalsy requested_str then format_cpu_usage used_str
    else do
      let requested_millicores ← parse_cpu_to_millicores requested_str
      if requested_millicores == (0 : Q) then format_cpu_usage used_str
      else do
        let percentage := (used_millicores / requested_millicores) * 100
        let used_formatted ← format_cpu_usage used_str
        let requested_formatted ← format_cpu_usage requested_str
        some (used_formatted ++ " / " ++ requested_formatted ++ " (" ++
              fmtFixed0 percentage ++ "%)")

/-- `format_age` (app.py lines 91-110).  The input models `now - created_time`
in whole seconds (`none` = absent creation timestamp); the timedelta fields
are `days = e // 86400` (floor) and `seconds = e % 86400 ∈ [0, 86400)`. -/
def format_age (elapsed : Option ℤ) : String :=
  match elapsed with
  | none => "Unknown"
  | some e =>
    let days : ℤ := e.fdiv 86400
    let seconds : ℕ := (e.emod 86400).toNat
    if 0 < days then toString days ++ "d"
    else if 3600 ≤ seconds then toString (seconds / 3600) ++ "h"
    else if 60 ≤ seconds then toString (seconds / 60) ++ "m"
    else toString seconds ++ "s"

/-- One entry of `pod.status.container_statuses`: only the `ready` flag is
read by status derivation. -/
structure ContainerStatus where
  ready : Bool
deriving DecidableEq

/-- The part of `pod.status` read by `get_pod_status`: the raw phase and the
optional container status list (`None` or the list; Python truthiness treats
`None` and `[]` alike). -/
structure PodStatus where
  phase : String
  container_statuses : Option (List ContainerStatus)
deriving DecidableEq

/-- A pod record as read by `get_pod_status`. -/
structure Pod where
  status : PodStatus
deriving DecidableEq

/-- Python truthiness of an optional list (`None` and `[]` are falsy). -/
def listTruthy {α : Type} : Option (List α) → Bool
  | none => false
  | some l => !l.isEmpty

/-- `get_pod_status` (app.py lines 113-123): the readiness refinement runs
only when the phase is "Running" and the container status list is truthy;
every other case falls through to the raw phase. -/
def get_pod_status (pod : Pod) : String :=
  if pod.status.phase == "Running" && listTruthy pod.status.container_statuses then
    if (pod.status.container_statuses.getD []).all (fun cs => cs.ready) then "Running"
    else "Starting"
  else pod.status.phase

/-- An action dictionary as built by `get_available_actions`. -/
structure Action where
  label : String
  href : String
  method : String
  style : String
  confirm : Option String
  description : String
deriving DecidableEq

/-- The fields of the `pod_data` dict read by `get_available_actions`
(`ns` stands for the source's `namespace` key, a reserved word in Lean). -/
structure PodData where
  name : String
  ns : String
  status : String
deriving DecidableEq

/-- The restart action dict (app.py lines 146-153). -/
def restart_action (ns pod_name : String) : Action :=
  { label := "RESTART",
    href := "/api/pods/" ++ ns ++ "/" ++ pod_name ++ "/restart",
    method := "POST",
    style := "warning",
    confirm := some ("Are you sure you want to restart pod " ++ pod_name ++ "?"),
    description := "Restart the pod by deleting it (will be recreated by controller)" }

/-- The delete action dict (app.py lines 157-164). -/
def delete_action (ns pod_name : String) : Action :=
  { label := "DELETE",
    href := "/api/pods/" ++ ns ++ "/" ++ pod_name,
    method := "DELETE",
    style := "danger",
    confirm := some ("Are you sure you want to delete pod " ++ pod_name ++ "?"),
    description := "Permanently delete the pod" }

/-- `get_available_actions` (app.py lines 126-166). -/
def get_available_actions (pod_data : PodData) : List Action :=
  let ns := pod_data.ns
  let pod_name := pod_data.name
  let status := pod_data.status
  (if status ∈ (["Running", "Starting", "Pending"] : List String) then
    [restart_action ns pod_name]
  else []) ++
  (if strStartsWith ns "kube-" = false ∨
      ns ∈ (["default", "production", "staging", "development"] : List String) then
    [delete_action ns pod_name]
  else [])

/-- The conditional `_actions` attachment of the pod list projection
(`get_pods`, app.py lines 604-612): the `_actions` key exists on the pod
record only when the derived status passes the guard; `none` models a record
without the key. -/
def pod_list_actions (pod : Pod) (pod_name pod_ns : String) : Option (List Action) :=
  let pod_status := get_pod_status pod
  if pod_status ∈ (["Running", "Starting", "Pending"] : List String) then
    some (get_available_actions { name := pod_name, ns := pod_ns, status := pod_status })
  else none

/-- Oracle for the Kubernetes client and filesystem calls made during context
resolution.  Each field answers one call: the credential mount point check,
`config.load_incluster_config()`, `config.load_kube_config(context=c)`,
`config.load_kube_config()` with the default context, the active context
reported by `config.list_kube_config_contexts()`, and the `str(e)` text of
the exception raised by a failing load (modelled as a `ConfigException`). -/
structure Env where
  in_cluster_file_exists : Bool
  incluster_load_ok : Bool
  kube_load_ok : String → Bool
  default_load_ok : Bool
  active_context : Option String
  err_text : String

/-- `is_running_in_cluster` (app.py lines 29-31): presence of the service
account token mount point, re-read on every call. -/
def is_running_in_cluster (env : Env) : Bool := env.in_cluster_file_exists

/-- `load_k8s_config` (app.py lines 34-53): returns
`(success, context-or-None, message)`. -/
def load_k8s_config (env : Env) (context_name : Option String) : Bool × Option String × String :=
  if is_running_in_cluster env then
    if env.incluster_load_ok then
      (true, some "in-cluster", "Using in-cluster service account configuration")
    else (false, none, "Kubernetes configuration error: " ++ env.err_text)
  else
    if pyFalsy context_name = false then
      let c := context_name.getD ""
      if env.kube_load_ok c then
        (true, some c, "Using Kubernetes context: " ++ c)
      else (false, none, "Kubernetes configuration error: " ++ env.err_text)
    else
      if env.default_load_ok then
        (true, some (env.active_context.getD "default"), "Using default Kubernetes context")
      else (false, none, "Kubernetes configuration error: " ++ env.err_text)

/-- The mutable state touched by `use_context`: the startup-cached
`RUNNING_IN_CLUSTER` flag, the `K8S_CONTEXT` and `K8S_MESSAGE` config
entries, and the session's `selected_context`. -/
structure AppState where
  running_in_cluster : Bool
  k8s_context : Option String
  k8s_message : Option String
  selected_context : Option String
deriving DecidableEq

/-- The two responses `use_context` can produce: a redirect to the index
page, or the context selector re-rendered with an error banner (only the
error text is modelled of the rendering). -/
inductive UseContextResult where
  | redirectIndex : UseContextResult
  | contextSelectorError (error : String) : UseContextResult
deriving DecidableEq

/-- `use_context` (app.py lines 487-505): the `/contexts/<context_name>`
handler, returning the updated state and the response. -/
def use_context (env : Env) (st : AppState) (context_name : String) : AppState × UseContextResult :=
  if st.running_in_cluster then (st, UseContextResult.redirectIndex)
  else
    let r := load_k8s_config env (some context_name)
    if r.1 then
      ({ st with selected_context := some context_name,
                 k8s_context := r.2.1,
                 k8s_message := some r.2.2 },
       UseContextResult.redirectIndex)
    else
      (st, UseContextResult.contextSelectorError ("Failed to switch context: " ++ r.2.2))

end Kubesight

namespace Kubesight

/-! Helper lemmas. -/

/-- Restart and delete dictionaries are never equal (their labels differ). -/
theorem restart_ne_delete (ns1 n1 ns2 n2 : String) :
    restart_action ns1 n1 ≠ delete_action ns2 n2 := by
  intro h
  simpa [restart_action, delete_action] using congrArg Action.label h

/-- Membership characterisation of the action list built by
`get_available_actions`. -/
theorem mem_get_available_actions (pd : PodData) (a : Action) :
    a ∈ get_available_actions pd ↔
      ((pd.status ∈ (["Running", "Starting", "Pending"] : List String) ∧
          a = restart_action pd.ns pd.name) ∨
       ((strStartsWith pd.ns "kube-" = false ∨
          pd.ns ∈ (["default", "production", "staging", "development"] : List String)) ∧
          a = delete_action pd.ns pd.name)) := by
  simp only [get_available_actions]
  split_ifs <;> simp_all

/-- Floor division of a cast natural by 86400 is the cast natural quotient. -/
theorem int_fdiv_day (m : ℕ) : Int.fdiv (m : ℤ) 86400 = ((m / 86400 : ℕ) : ℤ) := by
  cases m with
  | zero => simp [Int.fdiv]
  | succ m => rfl

/-- Euclidean remainder of a cast natural by 86400 is the natural remainder. -/
theorem int_emod_day (m : ℕ) : (Int.emod (m : ℤ) 86400).toNat = m % 86400 := by
  cases m with
  | zero => simp [Int.emod]
  | succ m => rfl

/-- Rendering a cast natural as an integer string agrees with the natural. -/
theorem toString_intCast_nat (k : ℕ) : toString ((k : ℤ)) = toString k := rfl

/-- Evaluation of `format_age` on a nonnegative elapsed duration given as a
natural number of seconds. -/
theorem format_age_nat (n : ℕ) :
    format_age (some (n : ℤ)) =
      (if 0 < n / 86400 then toString (n / 86400) ++ "d"
       else if 3600 ≤ n % 86400 then toString (n % 86400 / 3600) ++ "h"
       else if 60 ≤ n % 86400 then toString (n % 86400 / 60) ++ "m"
       else toString (n % 86400) ++ "s") := by
  simp only [format_age, int_fdiv_day, int_emod_day, toString_intCast_nat, Int.natCast_pos]

/-! Claim C1. -/

/-- C1 counterexample: the malformed quantity string "abc" makes the CPU
parser, the memory parser and the CPU formatter raise (modelled `none`)
instead of returning the safe default 0. -/
theorem malformed_quantity_raises :
    parse_cpu_to_millicores (some "abc") = none ∧
    parse_cpu_to_millicores (some "abc") ≠ some 0 ∧
    parse_memory_to_bytes (some "abc") = none ∧
    parse_memory_to_bytes (some "abc") ≠ some 0 ∧
    format_cpu_usage (some "abc") = none := by decide

/-- C1 amended: only absent or empty quantity strings are protected — they
yield the safe defaults 0 / 0 / "N/A" — and the CPU formatter passes any
string with the "m" suffix through unchanged; a malformed quantity string
that reaches a numeric conversion (such as "abc") raises an uncaught
exception instead of returning a default. -/
theorem quantity_defaults_amended :
    (∀ s : Option String, pyFalsy s = true →
       parse_cpu_to_millicores s = some 0 ∧ parse_memory_to_bytes s = some 0 ∧
       format_cpu_usage s = some "N/A") ∧
    (∀ body : String, format_cpu_usage (some (body ++ "m")) = some (body ++ "m")) ∧
    parse_cpu_to_millicores (some "abc") = none ∧
    parse_memory_to_bytes (some "abc") = none ∧
    format_cpu_usage (some "abc") = none := by
  refine ⟨?_, ?_, by decide, by decide, by decide⟩
  · intro s hs
    exact ⟨by simp [parse_cpu_to_millicores, hs],
           by simp [parse_memory_to_bytes, hs],
           by simp [format_cpu_usage, hs]⟩
  · intro body
    have hfal : pyFalsy (some (body ++ "m")) = false := by
      simp [pyFalsy, String.data_append]
    have hn : strEndsWith (body ++ "m") "n" = false := by
      simp [strEndsWith, List.isSuffixOf, String.data_append, List.isPrefixOf]
    have hm : strEndsWith (body ++ "m") "m" = true := by
      simp [strEndsWith, List.isSuffixOf, String.data_append, List.isPrefixOf]
    simp [format_cpu_usage, hfal, hn, hm]

/-- C1 witness: the amended theorem applied at the absent input and at a
concrete "m"-suffixed string. -/
theorem quantity_defaults_amended_witness :
    parse_cpu_to_millicores none = some 0 ∧
    format_cpu_usage (some ("150" ++ "m")) = some ("150" ++ "m") :=
  ⟨(quantity_defaults_amended.1 none rfl).1, quantity_defaults_amended.2.1 "150"⟩

/-! Claim C2. -/

/-- C2: restart is offered iff the status is Running, Starting or Pending
(with a confirmation prompt and warning style); delete is offered iff the
namespace does not start with "kube-" or is one of the four allow-listed
namespaces (with a confirmation prompt and danger style); delete eligibility
does not depend on the status; and when both are offered, restart precedes
delete. -/
theorem get_available_actions_policy :
    ∀ pd : PodData,
      (restart_action pd.ns pd.name ∈ get_available_actions pd ↔
         pd.status ∈ (["Running", "Starting", "Pending"] : List String)) ∧
      (restart_action pd.ns pd.name).style = "warning" ∧
      (restart_action pd.ns pd.name).confirm.isSome = true ∧
      (delete_action pd.ns pd.name ∈ get_available_actions pd ↔
         (strStartsWith pd.ns "kube-" = false ∨
          pd.ns ∈ (["default", "production", "staging", "development"] : List String))) ∧
      (delete_action pd.ns pd.name).style = "danger" ∧
      (delete_action pd.ns pd.name).confirm.isSome = true ∧
      (∀ s : String,
         (delete_action pd.ns pd.name ∈ get_available_actions { pd with status := s } ↔
          delete_action pd.ns pd.name ∈ get_available_actions pd)) ∧
      (pd.status ∈ (["Running", "Starting", "Pending"] : List String) →
       (strStartsWith pd.ns "kube-" = false ∨
        pd.ns ∈ (["default", "production", "staging", "development"] : List String)) →
       get_available_actions pd = [restart_action pd.ns pd.name, delete_action pd.ns pd.name]) := by
  intro pd
  refine ⟨?_, rfl, rfl, ?_, rfl, rfl, ?_, ?_⟩
  · rw [mem_get_available_actions]
    simp [restart_ne_delete pd.ns pd.name pd.ns pd.name]
  · rw [mem_get_available_actions]
    simp [Ne.symm (restart_ne_delete pd.ns pd.name pd.ns pd.name)]
  · intro s
    rw [mem_get_available_actions, mem_get_available_actions]
    simp [Ne.symm (restart_ne_delete pd.ns pd.name pd.ns pd.name)]
  · intro h1 h2
    simp only [get_available_actions]
    rw [if_pos h1, if_pos h2]
    rfl

/-- C2 witness: a Running pod in the "production" namespace gets exactly
restart then delete. -/
theorem get_available_actions_policy_witness :
    get_available_actions ⟨"web", "production", "Running"⟩ =
      [restart_action "production" "web", delete_action "production" "web"] :=
  (get_available_actions_policy ⟨"web", "production", "Running"⟩).2.2.2.2.2.2.2
    (by decide) (by decide)

end Kubesight

namespace Kubesight

/-! Claim C3. -/

/-- C3 counterexample: formatting the millicore string "500m" yields "500m"
unchanged (the passthrough branch adds no decimal), not "500.0m" as the
claim states. -/
theorem format_cpu_millicore_passthrough_cex :
    format_cpu_usage (some "500m") = some "500m" ∧
    format_cpu_usage (some "500m") ≠ some "500.0m" := by decide

/-- C3 amended: formatting "500m" yields "500m" (millicore strings pass
through unchanged); the bare-core string "1" formats as "1000.0m" and the
nanocore string "250000000n" formats as "250.0m". -/
theorem format_cpu_parse_format_pipeline :
    format_cpu_usage (some "500m") = some "500m" ∧
    format_cpu_usage (some "1") = some "1000.0m" ∧
    format_cpu_usage (some "250000000n") = some "250.0m" := by decide

/-! Claim C4. -/

/-- C4 counterexample: two worlds that differ only in whether the in-cluster
credential mount point exists at switch time give different switch results —
with the mount point present the active context becomes "in-cluster", not
the requested name — so the switch does consult the in-cluster detection
branch. -/
theorem use_context_consults_marker_cex :
    use_context ⟨true, true, fun _ => true, true, none, ""⟩ ⟨false, none, none, none⟩ "prod" ≠
      use_context ⟨false, true, fun _ => true, true, none, ""⟩ ⟨false, none, none, none⟩ "prod" ∧
    (use_context ⟨true, true, fun _ => true, true, none, ""⟩
        ⟨false, none, none, none⟩ "prod").1.k8s_context = some "in-cluster" := by decide

/-- C4 amended: an explicit context switch re-runs the full resolution chain
including the in-cluster detection: when the credential mount point is
present at switch time (and the in-cluster load succeeds) the in-cluster
branch fires and the active context becomes "in-cluster" regardless of the
requested name; only when the mount point is absent does the
local-credential-set branch run with the requested context. -/
theorem use_context_rechecks_in_cluster :
    ∀ (env : Env) (st : AppState) (name : String),
      st.running_in_cluster = false →
      (env.in_cluster_file_exists = true → env.incluster_load_ok = true →
         (use_context env st name).1.k8s_context = some "in-cluster" ∧
         (use_context env st name).2 = UseContextResult.redirectIndex) ∧
      (env.in_cluster_file_exists = false → pyFalsy (some name) = false →
         env.kube_load_ok name = true →
         (use_context env st name).1.k8s_context = some name ∧
         (use_context env st name).2 = UseContextResult.redirectIndex) := by
  intro env st name h
  constructor
  · intro hm hok
    constructor <;> simp [use_context, load_k8s_config, is_running_in_cluster, h, hm, hok]
  · intro hm hname hok
    constructor <;> simp [use_context, load_k8s_config, is_running_in_cluster, h, hm, hname, hok]

/-- C4 witness: the amended theorem applied in a world with the mount point
present and in a world without it. -/
theorem use_context_rechecks_in_cluster_witness :
    (use_context ⟨true, true, fun _ => true, true, none, ""⟩
        ⟨false, none, none, none⟩ "prod").1.k8s_context = some "in-cluster" ∧
    (use_context ⟨false, true, fun _ => true, true, none, ""⟩
        ⟨false, none, none, none⟩ "prod").1.k8s_context = some "prod" :=
  ⟨((use_context_rechecks_in_cluster ⟨true, true, fun _ => true, true, none, ""⟩
      ⟨false, none, none, none⟩ "prod" rfl).1 rfl rfl).1,
   ((use_context_rechecks_in_cluster ⟨false, true, fun _ => true, true, none, ""⟩
      ⟨false, none, none, none⟩ "prod" rfl).2 rfl (by decide) rfl).1⟩

/-! Claim C5. -/

/-- C5: when a context switch fails, the previously stored context and
diagnostic message (indeed the whole state) are left unchanged and the new
failure is reported separately in the response; when it succeeds, the active
context and message are replaced by the values the loader returned. -/
theorem use_context_switch_outcomes :
    ∀ (env : Env) (st : AppState) (name : String),
      st.running_in_cluster = false →
      ((load_k8s_config env (some name)).1 = false →
         (use_context env st name).1 = st ∧
         (use_context env st name).2 =
           UseContextResult.contextSelectorError
             ("Failed to switch context: " ++ (load_k8s_config env (some name)).2.2)) ∧
      ((load_k8s_config env (some name)).1 = true →
         (use_context env st name).1.k8s_context = (load_k8s_config env (some name)).2.1 ∧
         (use_context env st name).1.k8s_message = some (load_k8s_config env (some name)).2.2 ∧
         (use_context env st name).2 = UseContextResult.redirectIndex) := by
  intro env st name h
  constructor
  · intro hf
    constructor <;> simp [use_context, h, hf]
  · intro ht
    refine ⟨?_, ?_, ?_⟩ <;> simp [use_context, h, ht]

/-- C5 witness: a concrete failing switch leaves the concrete prior state
untouched and reports the failure. -/
theorem use_context_switch_outcomes_witness :
    (use_context ⟨false, false, fun _ => false, false, none, "boom"⟩
        ⟨false, some "old", some "oldmsg", none⟩ "prod").1 =
      ⟨false, some "old", some "oldmsg", none⟩ ∧
    (use_context ⟨false, false, fun _ => false, false, none, "boom"⟩
        ⟨false, some "old", some "oldmsg", none⟩ "prod").2 =
      UseContextResult.contextSelectorError
        ("Failed to switch context: " ++
         (load_k8s_config ⟨false, false, fun _ => false, false, none, "boom"⟩
            (some "prod")).2.2) :=
  (use_context_switch_outcomes ⟨false, false, fun _ => false, false, none, "boom"⟩
    ⟨false, some "old", some "oldmsg", none⟩ "prod" rfl).1 (by decide)

/-! Claim C6. -/

/-- C6: status derivation returns the raw phase verbatim when it is not
"Running"; returns "Running" when the phase is "Running" and no readiness
data is present; returns "Running" when all containers are ready; and
returns "Starting" when at least one container is not ready. -/
theorem get_pod_status_cases :
    ∀ pod : Pod,
      (pod.status.phase ≠ "Running" → get_pod_status pod = pod.status.phase) ∧
      (pod.status.phase = "Running" → listTruthy pod.status.container_statuses = false →
         get_pod_status pod = "Running") ∧
      (pod.status.phase = "Running" → listTruthy pod.status.container_statuses = true →
         (∀ cs ∈ pod.status.container_statuses.getD [], cs.ready = true) →
         get_pod_status pod = "Running") ∧
      (pod.status.phase = "Running" → listTruthy pod.status.container_statuses = true →
         (∃ cs ∈ pod.status.container_statuses.getD [], cs.ready = false) →
         get_pod_status pod = "Starting") := by
  intro pod
  refine ⟨?_, ?_, ?_, ?_⟩
  · intro h
    simp [get_pod_status, h]
  · intro h ht
    simp [get_pod_status, h, ht]
  · intro h ht hall
    simp [get_pod_status, h, ht, List.all_eq_true.2 hall]
  · intro h ht hex
    have hall : (pod.status.container_statuses.getD []).all (fun cs => cs.ready) = false := by
      obtain ⟨cs, hmem, hr⟩ := hex
      cases hv : (pod.status.container_statuses.getD []).all (fun cs => cs.ready)
      · rfl
      · exact absurd (List.all_eq_true.1 hv cs hmem) (by simp [hr])
    simp [get_pod_status, h, ht, hall]

/-- C6 witness: a Succeeded pod keeps its phase; a Running pod with one of
two containers not ready derives "Starting". -/
theorem get_pod_status_cases_witness :
    get_pod_status ⟨⟨"Succeeded", none⟩⟩ = "Succeeded" ∧
    get_pod_status ⟨⟨"Running", some [⟨true⟩, ⟨false⟩]⟩⟩ = "Starting" :=
  ⟨(get_pod_status_cases ⟨⟨"Succeeded", none⟩⟩).1 (by decide),
   (get_pod_status_cases ⟨⟨"Running", some [⟨true⟩, ⟨false⟩]⟩⟩).2.2.2 rfl rfl
     ⟨⟨false⟩, by decide, rfl⟩⟩

end Kubesight

namespace Kubesight

/-! Claim C7. -/

/-- C7 counterexample: with a malformed observed quantity string and a valid
baseline, both usage ratio formatters raise (modelled `none`) instead of
returning a display string, so the claim does not hold for every observed
string. -/
theorem format_with_percentage_raises_cex :
    format_cpu_with_percentage (some "abc") (some "100m") = none ∧
    format_memory_with_percentage (some "abc") (some "128Mi") = none := by decide

/-- C7 amended: restricted to inputs whose quantity strings parse (and, for
CPU, format) without raising: an absent observed value yields "N/A"; an
absent baseline or a baseline parsing to zero yields the plain formatting of
the observed value alone; otherwise the output is
"{observed} / {baseline} ({percentage}%)" with the percentage equal to
observed divided by baseline times 100, rendered with zero decimal places
and not clamped. -/
theorem format_with_percentage_cases :
    ∀ used req : Option String,
      (pyFalsy used = true →
         format_cpu_with_percentage used req = some "N/A" ∧
         format_memory_with_percentage used req = some "N/A") ∧
      (pyFalsy used = false →
         (∀ u : Q, parse_cpu_to_millicores used = some u →
            (pyFalsy req = true →
               format_cpu_with_percentage used req = format_cpu_usage used) ∧
            (∀ r : Q, parse_cpu_to_millicores req = some r → (r == (0 : Q)) = true →
               format_cpu_with_percentage used req = format_cpu_usage used) ∧
            (∀ r : Q, parse_cpu_to_millicores req = some r → (r == (0 : Q)) = false →
               ∀ uf rf : String,
                 format_cpu_usage used = some uf → format_cpu_usage req = some rf →
                   format_cpu_with_percentage used req =
                     some (uf ++ " / " ++ rf ++ " (" ++ fmtFixed0 ((u / r) * 100) ++ "%)"))) ∧
         (∀ ub : ℤ, parse_memory_to_bytes used = some ub →
            (pyFalsy req = true →
               format_memory_with_percentage used req = format_memory_usage used) ∧
            (∀ rb : ℤ, parse_memory_to_bytes req = some rb → rb = 0 →
               format_memory_with_percentage used req = format_memory_usage used) ∧
            (∀ rb : ℤ, parse_memory_to_bytes req = some rb → rb ≠ 0 →
               ∀ uf rf : String,
                 format_memory_usage used = some uf → format_memory_usage req = some rf →
                   format_memory_with_percentage used req =
                     some (uf ++ " / " ++ rf ++ " (" ++
                           fmtFixed0 ((Q.ofInt ub / Q.ofInt rb) * 100) ++ "%)")))) := by
  intro used req
  constructor
  · intro hfu
    constructor <;> simp [format_cpu_with_percentage, format_memory_with_percentage, hfu]
  · intro hfu
    constructor
    · intro u hu
      refine ⟨?_, ?_, ?_⟩
      · intro hfr
        simp [format_cpu_with_percentage, hfu, hu, hfr]
      · intro r hr hrz
        simp [format_cpu_with_percentage, hfu, hu, hr, hrz]
      · intro r hr hrz uf rf huf hrf
        simp [format_cpu_with_percentage, hfu, hu, hr, hrz, huf, hrf]
        by_cases hfr : pyFalsy req = true
        · simp [parse_cpu_to_millicores, hfr] at hr
          rw [hr.symm] at hrz
          exact absurd hrz (by decide)
        · simp [hfr]
    · intro ub hub
      refine ⟨?_, ?_, ?_⟩
      · intro hfr
        simp [format_memory_with_percentage, hfu, hub, hfr]
      · intro rb hrb hrz
        simp [format_memory_with_percentage, hfu, hub, hrb, hrz]
      · intro rb hrb hrz uf rf huf hrf
        simp [format_memory_with_percentage, hfu, hub, hrb, hrz, huf, hrf]
        by_cases hfr : pyFalsy req = true
        · simp [parse_memory_to_bytes, hfr] at hrb
          exact absurd hrb.symm hrz
        · simp [hfr]

/-- C7 witness: an over-limit CPU observation renders unclamped as 150%. -/
theorem format_with_percentage_cases_witness :
    format_cpu_with_percentage (some "150m") (some "100m") = some "150m / 100m (150%)" := by
  have h := (((format_with_percentage_cases (some "150m") (some "100m")).2 (by decide)).1
      ⟨150, 1⟩ (by decide)).2.2 ⟨100, 1⟩ (by decide) (by decide) "150m" "100m"
      (by decide) (by decide)
  rw [h]
  decide

/-! Claim C8. -/

/-- C8: "128Mi" parses to exactly 134217728 bytes; formatting the quantity
of 134217728 bytes yields "128.0Mi"; formatting the raw-byte string
"1073741824" yields "1.0Gi"; and the byte-count formatter picks the largest
unit (Gi, then Mi, then Ki, then raw bytes) whose magnitude is at least 1. -/
theorem memory_parse_format_units :
    parse_memory_to_bytes (some "128Mi") = some 134217728 ∧
    format_memory_usage (some "134217728") = some "128.0Mi" ∧
    format_memory_usage (some "1073741824") = some "1.0Gi" ∧
    (∀ b : ℤ,
      (1024 * 1024 * 1024 ≤ b →
         format_bytes_value b = fmtFixed1 (Q.ofInt b / (1024 * 1024 * 1024)) ++ "Gi") ∧
      (1024 * 1024 ≤ b → b < 1024 * 1024 * 1024 →
         format_bytes_value b = fmtFixed1 (Q.ofInt b / (1024 * 1024)) ++ "Mi") ∧
      (1024 ≤ b → b < 1024 * 1024 →
         format_bytes_value b = fmtFixed1 (Q.ofInt b / 1024) ++ "Ki") ∧
      (b < 1024 → format_bytes_value b = toString b ++ "B")) := by
  refine ⟨by decide, by decide, by decide, ?_⟩
  intro b
  refine ⟨?_, ?_, ?_, ?_⟩
  · intro hb
    rw [format_bytes_value, if_pos hb]
  · intro hb hb2
    rw [format_bytes_value, if_neg (by omega), if_pos hb]
  · intro hb hb2
    rw [format_bytes_value, if_neg (by omega), if_neg (by omega), if_pos hb]
  · intro hb
    rw [format_bytes_value, if_neg (by omega), if_neg (by omega), if_neg (by omega)]

/-- C8 witness: the unit table applied at exactly one binary gibibyte. -/
theorem memory_parse_format_units_witness :
    format_bytes_value 1073741824 =
      fmtFixed1 (Q.ofInt 1073741824 / (1024 * 1024 * 1024)) ++ "Gi" :=
  (memory_parse_format_units.2.2.2 1073741824).1 (by decide)

/-! Claim C9. -/

/-- C9: the age formatter returns "Unknown" for an absent timestamp and
otherwise buckets the nonnegative elapsed time by its most significant unit
with integer truncation (days, else hours, else minutes, else seconds); in
particular 90 minutes ago renders as "1h" and 45 seconds ago as "45s". -/
theorem format_age_buckets :
    format_age none = "Unknown" ∧
    (∀ n : ℕ,
      (86400 ≤ n → format_age (some (n : ℤ)) = toString (n / 86400) ++ "d") ∧
      (n < 86400 → 3600 ≤ n → format_age (some (n : ℤ)) = toString (n / 3600) ++ "h") ∧
      (n < 3600 → 60 ≤ n → format_age (some (n : ℤ)) = toString (n / 60) ++ "m") ∧
      (n < 60 → format_age (some (n : ℤ)) = toString n ++ "s")) ∧
    format_age (some 5400) = "1h" ∧
    format_age (some 45) = "45s" := by
  refine ⟨rfl, ?_, by decide, by decide⟩
  intro n
  refine ⟨?_, ?_, ?_, ?_⟩
  · intro h
    rw [format_age_nat, if_pos (by omega)]
  · intro h1 h2
    rw [format_age_nat, if_neg (by omega), if_pos (by omega), Nat.mod_eq_of_lt h1]
  · intro h1 h2
    rw [format_age_nat, if_neg (by omega), if_neg (by omega), if_pos (by omega),
      Nat.mod_eq_of_lt (by omega)]
  · intro h
    rw [format_age_nat, if_neg (by omega), if_neg (by omega), if_neg (by omega),
      Nat.mod_eq_of_lt (by omega)]

/-- C9 witness: the day bucket applied at 90000 seconds. -/
theorem format_age_buckets_witness :
    format_age (some ((90000 : ℕ) : ℤ)) = toString (90000 / 86400) ++ "d" :=
  (format_age_buckets.2.1 90000).1 (by decide)

/-! Claim C10. -/

/-- C10: the pod list projection attaches an actions list exactly when the
derived status is Running, Starting or Pending; for any other derived status
no action at all is attached, so no delete is ever offered there even in a
delete-eligible namespace. -/
theorem pod_list_actions_gating :
    ∀ (pod : Pod) (pod_name pod_ns : String),
      ((pod_list_actions pod pod_name pod_ns).isSome = true ↔
         get_pod_status pod ∈ (["Running", "Starting", "Pending"] : List String)) ∧
      (get_pod_status pod ∈ (["Running", "Starting", "Pending"] : List String) →
         pod_list_actions pod pod_name pod_ns =
           some (get_available_actions
             { name := pod_name, ns := pod_ns, status := get_pod_status pod })) ∧
      (get_pod_status pod ∉ (["Running", "Starting", "Pending"] : List String) →
         ∀ a : Action, a ∉ (pod_list_actions pod pod_name pod_ns).getD []) := by
  intro pod pod_name pod_ns
  by_cases h : get_pod_status pod ∈ (["Running", "Starting", "Pending"] : List String)
  · exact ⟨by simp [pod_list_actions, h], fun _ => by simp [pod_list_actions, h],
      fun hn => absurd h hn⟩
  · exact ⟨by simp [pod_list_actions, h], fun hc => absurd hc h,
      fun _ a => by simp [pod_list_actions, h]⟩

/-- C10 witness: a Succeeded pod in the delete-eligible "production"
namespace is offered no action at all, in particular not delete. -/
theorem pod_list_actions_gating_witness :
    delete_action "production" "web" ∉
      (pod_list_actions ⟨⟨"Succeeded", none⟩⟩ "web" "production").getD [] :=
  (pod_list_actions_gating ⟨⟨"Succeeded", none⟩⟩ "web" "production").2.2 (by decide)
    (delete_action "production" "web")

end Kubesight
